import Mathlib

/-!
Verification of the AI-Know data-chat frontend.

This file shallowly embeds the data-chat page logic
(`web/src/apis/data_chat_api.js` bundle: the DataChat view's
`handleSend` / `processSSEEvent` / `loadDatasources`) and the
`DataChatChart.vue` component (`normalizeColumns`, `renderChart`,
`buildOption`, `buildBarOption`, `buildLineOption`, `buildPieOption`).

JSON values are modelled by the scalar type `JValue` (rows and config
fields in this app carry strings/numbers/booleans/null); an absent
(`undefined`) field is `Option.none`.  JavaScript truthiness is mirrored
explicitly: the empty string and `0` are falsy, arrays and objects are
modelled through `Option` presence.  Constant presentation attributes of
the built ECharts options (tooltip trigger, grid geometry, pie label
format) are data-independent literals in the source and are not carried
in the model; every data-dependent part of each option is.
-/

/-- Scalar JSON value, as stored in result rows and config fields. -/
inductive JValue where
  | str (s : String)
  | num (n : Int)
  | jbool (b : Bool)
  | jnull
  deriving DecidableEq

/-- JavaScript truthiness of a scalar value: `''`, `0`, `false`, `null`
are falsy. -/
def jTruthy : JValue → Bool
  | .str s => s ≠ ""
  | .num n => n ≠ 0
  | .jbool b => b
  | .jnull => false

/-- Truthiness of a possibly-absent value (`undefined` is falsy). -/
def jOptTruthy : Option JValue → Bool
  | some v => jTruthy v
  | none => false

/-- A result row: a JS object mapping column name to value, in insertion
order (`Object.keys` order is this list's order). -/
def Row : Type := List (String × JValue)

instance : DecidableEq Row := inferInstanceAs (DecidableEq (List (String × JValue)))

/-- JS property read `d[k]`: first binding of the key, `undefined`
(= `none`) when the key is missing. -/
def rowGet (r : Row) (k : String) : Option JValue :=
  (List.find? (fun p => p.1 == k) r).map (fun p => p.2)

/-- JS property read with a possibly-`undefined` key (`d[undefined]`
reads no real column of a result row, so it yields `undefined`). -/
def rowGetOpt (r : Row) (k : Option String) : Option JValue :=
  match k with
  | some s => rowGet r s
  | none => none

/-- JS `a || b` on possibly-absent strings: `a` wins iff it is truthy
(present and non-empty). -/
def strTruthyOr (a b : Option String) : Option String :=
  match a with
  | some s => if s = "" then b else some s
  | none => b

/-- One entry of `render_data.columns`: a plain string, an object
(`col.value ?? col.name ?? col.key ?? ''`), or anything else rendered
through `String(col)`. -/
inductive ColSpec where
  | str (s : String)
  | obj (value : Option String) (nm : Option String) (key : Option String)
  | raw (s : String)
  deriving DecidableEq

/-- The name a column entry normalizes to (`??` is nullish coalescing:
only `null`/`undefined` fall through, the empty string does not). -/
def colName : ColSpec → String
  | .str s => s
  | .obj value nm key => ((value.or nm).or key).getD ""
  | .raw s => s

/-- `render_data` payload: optional column list and optional row list. -/
structure RenderData where
  columns : Option (List ColSpec)
  data : Option (List Row)
  deriving DecidableEq

/-- `config.axis.{series,x,y}` entry with its `value` field. -/
structure AxisField where
  value : Option String
  deriving DecidableEq

/-- `config.axis` object for pie field mapping. -/
structure AxisCfg where
  series : Option AxisField
  x : Option AxisField
  y : Option AxisField
  deriving DecidableEq

/-- Chart configuration object produced by the backend and consumed by
`DataChatChart.vue`. -/
structure ChartConfig where
  chart_type : Option String
  type : Option String
  x_field : Option String
  y_fields : Option (List String)
  name_field : Option String
  value_field : Option String
  axis : Option AxisCfg
  series : Option JValue
  xAxis : Option JValue
  yAxis : Option JValue
  deriving DecidableEq

/-- The `data` object of a parsed SSE event, with every field the
consumer reads. -/
structure EventData where
  status : Option String
  step : Option String
  stepName : Option String
  content : Option String
  messageType : Option String
  chart_config : Option ChartConfig
  render_data : Option RenderData
  sql : Option String
  recommended_questions : Option (List String)
  chat_id : Option String
  deriving DecidableEq

/-- A parsed SSE event: `{"dataType": "...", "data": {...}}`. -/
structure SSEEvent where
  dataType : String
  data : EventData
  deriving DecidableEq

/-- One entry of the message's step list (`{label, status}`); the label
is `data.stepName || data.step`, which may be `undefined`. -/
structure Step where
  label : Option String
  status : String
  deriving DecidableEq

/-- The AI message state mutated by `processSSEEvent` (the `aiMsg`
reactive object of `handleSend`). -/
structure Msg where
  msgKey : Nat
  steps : List Step
  sql : Option String
  chartConfig : Option ChartConfig
  renderData : Option RenderData
  tableData : Option (List Row)
  summary : Option String
  recommended : Option (List String)
  error : Option String
  deriving DecidableEq

/-- The fresh `aiMsg` pushed by `handleSend` before streaming. -/
def initialAiMsg : Msg :=
  { msgKey := 0, steps := [], sql := none, chartConfig := none,
    renderData := none, tableData := none, summary := none,
    recommended := none, error := none }

/-- `msg.steps.find(s => s.label === target)` followed by
`step.status = 'done'`: mark the first step with the given label done;
no match leaves the list unchanged. -/
def markDone : List Step → Option String → List Step
  | [], _ => []
  | s :: rest, target =>
    if s.label = target then { s with status := "done" } :: rest
    else s :: markDone rest target

/-- The `step_progress` case of `processSSEEvent`. -/
def applyStepProgress (msg : Msg) (d : EventData) : Msg :=
  if d.status = some "start" then
    { msg with steps :=
        msg.steps ++ [{ label := strTruthyOr d.stepName d.step, status := "running" }] }
  else if d.status = some "complete" then
    { msg with steps := markDone msg.steps (strTruthyOr d.stepName d.step) }
  else msg

/-- The `answer` case of `processSSEEvent`:
`msg.summary = (msg.summary || '') + (data.content || '')` unless the
message type is `error`. -/
def applyAnswer (msg : Msg) (d : EventData) : Msg :=
  if d.messageType = some "error" then
    { msg with error := d.content }
  else
    { msg with summary := some ((msg.summary.getD "") ++ (d.content.getD "")) }

/-- The `bus_data` case of `processSSEEvent`: four independent guarded
field writes (`!= null` checks for `chart_config`/`render_data`,
truthiness checks for `sql`/`recommended_questions`). -/
def applyBusData (msg : Msg) (d : EventData) : Msg :=
  let m1 := match d.chart_config with
    | some c => { msg with chartConfig := some c }
    | none => msg
  let m2 := match d.render_data with
    | some r => { m1 with renderData := some r, tableData := r.data }
    | none => m1
  let m3 := match d.sql with
    | some s => if s = "" then m2 else { m2 with sql := some s }
    | none => m2
  match d.recommended_questions with
  | some qs => { m3 with recommended := some qs }
  | none => m3

/-- `processSSEEvent(msg, evt)`: dispatch on `evt.dataType`; the
`stream_end` case and every unknown type leave the message unchanged. -/
def processSSEEvent (msg : Msg) (evt : SSEEvent) : Msg :=
  if evt.dataType = "step_progress" then applyStepProgress msg evt.data
  else if evt.dataType = "answer" then applyAnswer msg evt.data
  else if evt.dataType = "bus_data" then applyBusData msg evt.data
  else msg

/-- Truthiness of a possibly-absent string (`undefined` and `''` are
falsy). -/
def optStrTruthy : Option String → Bool
  | some s => s ≠ ""
  | none => false

/-- The per-session state touched by `handleSend`'s SSE loop: the
session's `chatId` ref and the in-flight AI message. -/
structure SessionState where
  chatId : Option String
  msg : Msg
  deriving DecidableEq

/-- One iteration of `handleSend`'s event loop on a parsed event:
`stream_end` carrying a truthy `chat_id` updates the session's run
identifier; every other event goes to `processSSEEvent`. -/
def handleSSEEvent (st : SessionState) (evt : SSEEvent) : SessionState :=
  if evt.dataType = "stream_end" ∧ optStrTruthy evt.data.chat_id = true then
    { st with chatId := evt.data.chat_id }
  else
    { st with msg := processSSEEvent st.msg evt }

/-- `normalizeColumns(renderData)`: column names from
`renderData.columns` when present and usable, otherwise the keys of the
first data row, otherwise empty.  `normalizeColumns (none)` is the
`normalizeColumns(renderData || {})` call with a falsy `renderData`. -/
def normalizeColumns (renderData : Option RenderData) : List String :=
  let fromCols :=
    match renderData.bind RenderData.columns with
    | some cols =>
        if cols.length ≠ 0 then (cols.map colName).filter (fun s => s ≠ "") else []
    | none => []
  if fromCols.length ≠ 0 then fromCols
  else
    match (renderData.bind RenderData.data).bind List.head? with
    | some first => first.map Prod.fst
    | none => []

/-- One entry of a built option's `series` array (`smooth` is set only
by the line builder). -/
structure SeriesSpec where
  name : String
  seriesType : String
  smooth : Option Bool
  data : List (Option JValue)
  deriving DecidableEq

/-- Data-dependent payload of a built bar/line option: palette, category
axis data, optional bar label rotation, series list. -/
structure BarLineOption where
  color : List String
  xData : List (Option JValue)
  rotate : Option Nat
  series : List SeriesSpec
  deriving DecidableEq

/-- Data-dependent payload of a built pie option: palette and the
(name, value) pairs of its single series. -/
structure PieOption where
  color : List String
  data : List (Option JValue × Option JValue)
  deriving DecidableEq

/-- Result of `buildOption`, one constructor per return site. -/
inductive EOption where
  | passthrough (config : ChartConfig) (color : List String)
  | noData
  | tablePlaceholder
  | bar (o : BarLineOption)
  | line (o : BarLineOption)
  | pie (o : PieOption)
  deriving DecidableEq

/-- `buildBarOption`: `x_field || columns[0]` as category axis,
`y_fields || columns.slice(1)` as bar series. -/
def buildBarOption (config : ChartConfig) (data : List Row)
    (columns : List String) (colors : List String) : BarLineOption :=
  let xField := strTruthyOr config.x_field columns.head?
  let yFields := match config.y_fields with
    | some fs => fs
    | none => columns.drop 1
  { color := colors,
    xData := data.map (fun d => rowGetOpt d xField),
    rotate := some (if data.length > 8 then 30 else 0),
    series := yFields.map (fun field =>
      { name := field, seriesType := "bar", smooth := none,
        data := data.map (fun d => rowGet d field) }) }

/-- `buildLineOption`: same field fallback as the bar builder, smoothed
line series, no axis-label rotation. -/
def buildLineOption (config : ChartConfig) (data : List Row)
    (columns : List String) (colors : List String) : BarLineOption :=
  let xField := strTruthyOr config.x_field columns.head?
  let yFields := match config.y_fields with
    | some fs => fs
    | none => columns.drop 1
  { color := colors,
    xData := data.map (fun d => rowGetOpt d xField),
    rotate := none,
    series := yFields.map (fun field =>
      { name := field, seriesType := "line", smooth := some true,
        data := data.map (fun d => rowGet d field) }) }

/-- `buildPieOption`: name field from
`name_field || axis?.series?.value || axis?.x?.value || columns[0]`,
value field from `value_field || axis?.y?.value || columns[1]`. -/
def buildPieOption (config : ChartConfig) (data : List Row)
    (columns : List String) (colors : List String) : PieOption :=
  let nameField :=
    strTruthyOr config.name_field
      (strTruthyOr ((config.axis.bind AxisCfg.series).bind AxisField.value)
        (strTruthyOr ((config.axis.bind AxisCfg.x).bind AxisField.value)
          columns.head?))
  let valueField :=
    strTruthyOr config.value_field
      (strTruthyOr ((config.axis.bind AxisCfg.y).bind AxisField.value)
        (columns.drop 1).head?)
  { color := colors,
    data := data.map (fun d => (rowGetOpt d nameField, rowGetOpt d valueField)) }

/-- `config.chart_type || config.type || 'bar'`. -/
def chartTypeOf (config : ChartConfig) : String :=
  (strTruthyOr config.chart_type (strTruthyOr config.type (some "bar"))).getD "bar"

/-- `buildOption(config, renderData)` with the palette read from the
document: pass a config that already looks like a full ECharts option
through; otherwise dispatch on the chart type, with an empty data array
giving the no-data placeholder and every kind other than
pie/line/table falling into the `bar`/`default` switch branch. -/
def buildOption (config : ChartConfig) (renderData : Option RenderData)
    (colors : List String) : EOption :=
  if jOptTruthy config.series = true ∨ jOptTruthy config.xAxis = true ∨
      jOptTruthy config.yAxis = true then
    .passthrough config colors
  else
    let chartType := chartTypeOf config
    let data := (renderData.bind RenderData.data).getD []
    let columns := normalizeColumns renderData
    if data.length = 0 then .noData
    else if chartType = "pie" then .pie (buildPieOption config data columns colors)
    else if chartType = "line" then .line (buildLineOption config data columns colors)
    else if chartType = "table" then .tablePlaceholder
    else .bar (buildBarOption config data columns colors)

/-- `renderChart()`: returns the option handed to `setOption`, or `none`
when it bails out early (`!chartRef.value || !props.config`). -/
def renderChart (chartRefPresent : Bool) (config : Option ChartConfig)
    (data : Option RenderData) (colors : List String) : Option EOption :=
  if chartRefPresent = false ∨ config = none then none
  else config.map (fun c => buildOption c data colors)

/-- A datasource entry as returned by `datasourceApi.list()`. -/
structure Datasource where
  id : Nat
  name : String
  status : String
  deriving DecidableEq

/-- An entry of the datasource selector (`{label, value}`). -/
structure DsOption where
  label : String
  value : Nat
  deriving DecidableEq

/-- `loadDatasources`: keep only datasources whose status is `success`,
then project to selector options. -/
def loadDatasources (list : List Datasource) : List DsOption :=
  (list.filter (fun ds => ds.status == "success")).map
    (fun ds => { label := ds.name, value := ds.id })

/-- JS `String.prototype.trim()`: strip leading and trailing
whitespace.  Reimplemented over the character list so that concrete
instances reduce inside the kernel. -/
def jsTrim (s : String) : String :=
  String.mk (((s.data.dropWhile Char.isWhitespace).reverse.dropWhile
    Char.isWhitespace).reverse)

/-- The body of the POST `/api/data-chat/chat` request built by
`handleSend` (`model: selectedModel.value || undefined`). -/
structure ChatRequest where
  query : String
  datasource_id : Nat
  chat_id : Option String
  model : Option String
  deriving DecidableEq

/-- Truthiness of the `currentDsId` ref (`null` and `0` are falsy). -/
def dsTruthy : Option Nat → Bool
  | some n => n ≠ 0
  | none => false

/-- One entry of the messages list: a user bubble or an AI message. -/
inductive ChatMessage where
  | user (content : String)
  | ai (msg : Msg)
  deriving DecidableEq

/-- The DataChat view state that `handleSend` reads and writes. -/
structure UIState where
  inputText : String
  currentDsId : Option Nat
  streaming : Bool
  chatId : Option String
  selectedModel : String
  messages : List ChatMessage
  deriving DecidableEq

/-- `handleSend`'s guard and request construction: `none` when
`!query || !currentDsId.value || streaming.value`, otherwise the
payload `{query, datasource_id, chat_id, model}`. -/
def handleSendRequest (st : UIState) : Option ChatRequest :=
  let query := jsTrim st.inputText
  if query = "" ∨ dsTruthy st.currentDsId = false ∨ st.streaming = true then none
  else some
    { query := query,
      datasource_id := st.currentDsId.getD 0,
      chat_id := st.chatId,
      model := if st.selectedModel = "" then none else some st.selectedModel }

/-- What the awaited fetch produced: a non-ok HTTP response, or a
streamed body whose parsed `data:` events are listed in order, with
`exn = some m` when an exception with message `m` interrupted the read
after those events. -/
inductive StreamResult where
  | httpFail (status : Nat)
  | stream (events : List SSEEvent) (exn : Option String)
  deriving DecidableEq

/-- `'请求异常: ' + (e.message || '未知错误')`. -/
def exnText (m : String) : String :=
  "请求异常: " ++ (if m = "" then "未知错误" else m)

/-- The complete `handleSend` run as a state transformer: refused sends
leave the state untouched; otherwise the user bubble and a fresh AI
message are appended, the stream outcome is folded into them through
`handleSSEEvent`, and the `finally` block clears `streaming`. -/
def handleSendRun (st : UIState) (res : StreamResult) : UIState :=
  match handleSendRequest st with
  | none => st
  | some _ =>
    let query := jsTrim st.inputText
    match res with
    | .httpFail status =>
        { st with
          inputText := "",
          streaming := false,
          messages := st.messages ++
            [ .user query,
              .ai { initialAiMsg with
                      error := some ("请求失败: " ++ toString status) } ] }
    | .stream events exn =>
        let fin := events.foldl handleSSEEvent
          { chatId := st.chatId, msg := initialAiMsg }
        let aiMsg := match exn with
          | some m => { fin.msg with error := some (exnText m) }
          | none => fin.msg
        { st with
          inputText := "",
          streaming := false,
          chatId := fin.chatId,
          messages := st.messages ++ [ .user query, .ai aiMsg ] }

/-- The view states at `handleSend`'s suspension points while the stream
is in flight: the state right after `streaming.value = true`, then the
state after each processed event (the loop yields to the renderer after
every event).  Empty when the send is refused.  The final state (after
the `finally` block) is `handleSendRun` and is not in this list. -/
def handleSendMidStates (st : UIState) (res : StreamResult) : List UIState :=
  match handleSendRequest st with
  | none => []
  | some _ =>
    let query := jsTrim st.inputText
    let base := { st with
                  inputText := "",
                  streaming := true,
                  messages := st.messages ++ [ .user query, .ai initialAiMsg ] }
    match res with
    | .httpFail _ => [base]
    | .stream events _ =>
        (events.scanl handleSSEEvent { chatId := st.chatId, msg := initialAiMsg }).map
          (fun s => { base with
                      chatId := s.chatId,
                      messages := st.messages ++ [ .user query, .ai s.msg ] })

/-- Event data with every field absent, for concrete instantiations. -/
def emptyEventData : EventData :=
  { status := none, step := none, stepName := none, content := none,
    messageType := none, chart_config := none, render_data := none,
    sql := none, recommended_questions := none, chat_id := none }

/-- Chart config with every field absent, for concrete instantiations. -/
def emptyChartConfig : ChartConfig :=
  { chart_type := none, type := none, x_field := none, y_fields := none,
    name_field := none, value_field := none, axis := none,
    series := none, xAxis := none, yAxis := none }

/-- A two-column sample row. -/
def sampleRow : Row := [("a", .num 1), ("b", .num 2)]

/-- Render data with one sample row and no column list. -/
def sampleRenderData : RenderData := { columns := none, data := some [sampleRow] }

/-- C1: `processSSEEvent` changes the message only for the four known
event kinds — any other `dataType` leaves the message unchanged — and in
the consuming loop a `stream_end` event carrying a (truthy) `chat_id`
sets the session's run identifier to that `chat_id` while leaving the
message untouched. -/
theorem processSSEEvent_dispatch_c1 :
    (∀ (msg : Msg) (evt : SSEEvent),
        evt.dataType ≠ "step_progress" → evt.dataType ≠ "answer" →
        evt.dataType ≠ "bus_data" → evt.dataType ≠ "stream_end" →
        processSSEEvent msg evt = msg) ∧
    (∀ (st : SessionState) (evt : SSEEvent) (c : String),
        evt.dataType = "stream_end" → evt.data.chat_id = some c → c ≠ "" →
        (handleSSEEvent st evt).chatId = some c ∧
        (handleSSEEvent st evt).msg = st.msg) := by
  constructor
  · intro msg evt h1 h2 h3 _h4
    simp [processSSEEvent, h1, h2, h3]
  · intro st evt c h1 h2 h3
    simp [handleSSEEvent, h1, h2, optStrTruthy, h3]

/-- Witness for C1 at concrete events. -/
theorem processSSEEvent_dispatch_c1_witness :
    processSSEEvent initialAiMsg { dataType := "ping", data := emptyEventData } =
        initialAiMsg ∧
    (handleSSEEvent { chatId := none, msg := initialAiMsg }
        { dataType := "stream_end",
          data := { emptyEventData with chat_id := some "run-1" } }).chatId =
      some "run-1" := by
  constructor
  · exact processSSEEvent_dispatch_c1.1 initialAiMsg _
      (by decide) (by decide) (by decide) (by decide)
  · exact (processSSEEvent_dispatch_c1.2 _ _ "run-1" rfl rfl (by decide)).1

/-- C3: the chat request body carries exactly
`{query, datasource_id, chat_id, model}` (the last two optional), and no
request is built when the trimmed question is empty or no datasource is
selected. -/
theorem handleSend_request_contract_c3 (st : UIState) :
    ((jsTrim st.inputText = "" ∨ st.currentDsId = none) → handleSendRequest st = none) ∧
    (handleSendRequest st = none ∨
      ∃ n, st.currentDsId = some n ∧
        handleSendRequest st = some
          { query := jsTrim st.inputText,
            datasource_id := n,
            chat_id := st.chatId,
            model := if st.selectedModel = "" then none else some st.selectedModel }) := by
  constructor
  · intro h
    rcases h with h | h <;> simp [handleSendRequest, h, dsTruthy]
  · simp only [handleSendRequest]
    split
    · exact Or.inl rfl
    · rename_i hguard
      push_neg at hguard
      obtain ⟨-, hds, -⟩ := hguard
      cases h : st.currentDsId with
      | none => rw [h] at hds; simp [dsTruthy] at hds
      | some n => exact Or.inr ⟨n, rfl, rfl⟩

/-- Witness for C3 at concrete view states (the first with no datasource
selected, the second fully populated). -/
theorem handleSend_request_contract_c3_witness :
    handleSendRequest
        { inputText := "问题", currentDsId := none, streaming := false,
          chatId := none, selectedModel := "", messages := [] } = none ∧
    (handleSendRequest
        { inputText := "问题", currentDsId := some 7, streaming := false,
          chatId := some "run-1", selectedModel := "gpt", messages := [] } = none ∨
      ∃ n, (some 7 : Option Nat) = some n ∧
        handleSendRequest
          { inputText := "问题", currentDsId := some 7, streaming := false,
            chatId := some "run-1", selectedModel := "gpt", messages := [] } = some
          { query := jsTrim "问题",
            datasource_id := n,
            chat_id := some "run-1",
            model := if ("gpt" : String) = "" then none else some "gpt" }) :=
  ⟨(handleSend_request_contract_c3 _).1 (Or.inr rfl),
   (handleSend_request_contract_c3
      { inputText := "问题", currentDsId := some 7, streaming := false,
        chatId := some "run-1", selectedModel := "gpt", messages := [] }).2⟩

/-- C6: an `answer` event with `messageType = "error"` stores the event
content in the error field and leaves the summary alone; any other
`answer` event appends the content to the accumulated summary. -/
theorem answer_event_semantics_c6 (m : Msg) (e : SSEEvent)
    (h : e.dataType = "answer") :
    (e.data.messageType = some "error" →
        processSSEEvent m e = { m with error := e.data.content }) ∧
    (e.data.messageType ≠ some "error" →
        processSSEEvent m e =
          { m with summary := some ((m.summary.getD "") ++ (e.data.content.getD "")) }) := by
  constructor
  · intro herr
    simp [processSSEEvent, h, applyAnswer, herr]
  · intro herr
    simp [processSSEEvent, h, applyAnswer, herr]

/-- Witness for C6 at concrete `answer` events. -/
theorem answer_event_semantics_c6_witness :
    processSSEEvent { initialAiMsg with summary := some "部分" }
        { dataType := "answer",
          data := { emptyEventData with content := some "摘要" } } =
      { initialAiMsg with summary := some "部分摘要" } ∧
    processSSEEvent { initialAiMsg with summary := some "部分" }
        { dataType := "answer",
          data := { emptyEventData with content := some "出错了", messageType := some "error" } } =
      { initialAiMsg with summary := some "部分", error := some "出错了" } := by
  constructor
  · have h := (answer_event_semantics_c6 { initialAiMsg with summary := some "部分" }
      { dataType := "answer", data := { emptyEventData with content := some "摘要" } }
      rfl).2 (by decide)
    exact h.trans (by decide)
  · have h := (answer_event_semantics_c6 { initialAiMsg with summary := some "部分" }
      { dataType := "answer",
        data := { emptyEventData with content := some "出错了", messageType := some "error" } }
      rfl).1 rfl
    exact h.trans (by decide)

/-- C9: every selectable datasource option comes from a fetched
datasource whose status is `success`. -/
theorem datasource_options_success_c9 (list : List Datasource) (opt : DsOption)
    (h : opt ∈ loadDatasources list) :
    ∃ ds ∈ list, ds.status = "success" ∧
      opt = { label := ds.name, value := ds.id } := by
  unfold loadDatasources at h
  obtain ⟨ds, hds, hopt⟩ := List.mem_map.1 h
  obtain ⟨hmem, hstat⟩ := List.mem_filter.1 hds
  exact ⟨ds, hmem, by simpa using hstat, hopt.symm⟩

/-- Witness for C9 on a concrete datasource list. -/
theorem datasource_options_success_c9_witness :
    { label := "ok", value := 1 } ∈ loadDatasources
        [ { id := 1, name := "ok", status := "success" },
          { id := 2, name := "bad", status := "failed" } ] ∧
    ∃ ds ∈ [ ({ id := 1, name := "ok", status := "success" } : Datasource),
             { id := 2, name := "bad", status := "failed" } ],
      ds.status = "success" ∧
      ({ label := "ok", value := 1 } : DsOption) =
        { label := ds.name, value := ds.id } :=
  ⟨by decide, datasource_options_success_c9 _ _ (by decide)⟩

/-- C2 counterexample: a chart kind that is none of pie/line/table (here
`scatter`, likewise an absent kind) does not resolve to the table
rendering — `buildOption` takes the `bar`/`default` switch branch. -/
theorem buildOption_default_c2_counterexample :
    buildOption { emptyChartConfig with chart_type := some "scatter" }
        (some sampleRenderData) [] =
      .bar (buildBarOption { emptyChartConfig with chart_type := some "scatter" }
        [sampleRow] ["a", "b"] []) ∧
    buildOption { emptyChartConfig with chart_type := some "scatter" }
        (some sampleRenderData) [] ≠ .tablePlaceholder := by
  constructor <;> decide

/-- C2 (amended): for a config that is not already a full ECharts option,
a chart kind that is none of pie/line/table (including absent or
unrecognized kinds) resolves to the bar rendering — bar is the default
branch — and the table placeholder is produced only for an explicit
`table` kind. -/
theorem buildOption_default_bar_c2 :
    (∀ (config : ChartConfig) (renderData : Option RenderData) (colors : List String),
        jOptTruthy config.series = false → jOptTruthy config.xAxis = false →
        jOptTruthy config.yAxis = false →
        chartTypeOf config ≠ "pie" → chartTypeOf config ≠ "line" →
        chartTypeOf config ≠ "table" →
        (renderData.bind RenderData.data).getD [] ≠ [] →
        buildOption config renderData colors =
          .bar (buildBarOption config ((renderData.bind RenderData.data).getD [])
            (normalizeColumns renderData) colors)) ∧
    (∀ (config : ChartConfig) (renderData : Option RenderData) (colors : List String),
        chartTypeOf config ≠ "table" →
        buildOption config renderData colors ≠ .tablePlaceholder) := by
  constructor
  · intro config renderData colors hs hx hy hpie hline htable hdata
    simp [buildOption, hs, hx, hy, hpie, hline, htable, List.length_eq_zero, hdata]
  · intro config renderData colors htable
    simp only [buildOption]
    split_ifs <;> simp_all

/-- Witness for C2's amended theorem at a concrete `scatter` config. -/
theorem buildOption_default_bar_c2_witness :
    buildOption { emptyChartConfig with chart_type := some "scatter" }
        (some { columns := some [.str "x", .str "y"], data := some [sampleRow] }) [] =
      .bar (buildBarOption { emptyChartConfig with chart_type := some "scatter" }
        [sampleRow] ["x", "y"] []) ∧
    buildOption { emptyChartConfig with chart_type := some "bar" } none [] ≠
      .tablePlaceholder := by
  constructor
  · have h := buildOption_default_bar_c2.1
      { emptyChartConfig with chart_type := some "scatter" }
      (some { columns := some [.str "x", .str "y"], data := some [sampleRow] }) []
      rfl rfl rfl (by decide) (by decide) (by decide) (by decide)
    exact h.trans (by decide)
  · exact buildOption_default_bar_c2.2
      { emptyChartConfig with chart_type := some "bar" } none [] (by decide)

/-- C8: with a missing field mapping, the bar and line builders fall
back to the first column as category axis (`x_field || columns[0]`) and
all remaining columns as series (`y_fields || columns.slice(1)`). -/
theorem missing_mapping_fallback_c8 :
    (∀ (config : ChartConfig) (data : List Row) (columns colors : List String),
        config.x_field = none →
        (buildBarOption config data columns colors).xData =
            data.map (fun d => rowGetOpt d columns.head?) ∧
        (buildLineOption config data columns colors).xData =
            data.map (fun d => rowGetOpt d columns.head?)) ∧
    (∀ (config : ChartConfig) (data : List Row) (columns colors : List String),
        config.y_fields = none →
        (buildBarOption config data columns colors).series =
            (columns.drop 1).map (fun field =>
              { name := field, seriesType := "bar", smooth := none,
                data := data.map (fun d => rowGet d field) }) ∧
        (buildLineOption config data columns colors).series =
            (columns.drop 1).map (fun field =>
              { name := field, seriesType := "line", smooth := some true,
                data := data.map (fun d => rowGet d field) })) := by
  constructor
  · intro config data columns colors hx
    constructor <;> simp [buildBarOption, buildLineOption, hx, strTruthyOr]
  · intro config data columns colors hy
    constructor <;> simp [buildBarOption, buildLineOption, hy]

/-- Witness for C8 at a concrete mapping-free config. -/
theorem missing_mapping_fallback_c8_witness :
    ((buildBarOption emptyChartConfig [sampleRow] ["a", "b"] []).xData =
        [sampleRow].map (fun d => rowGetOpt d (["a", "b"].head?)) ∧
      (buildLineOption emptyChartConfig [sampleRow] ["a", "b"] []).xData =
        [sampleRow].map (fun d => rowGetOpt d (["a", "b"].head?))) ∧
    ((buildBarOption emptyChartConfig [sampleRow] ["a", "b"] []).series =
        (["a", "b"].drop 1).map (fun field =>
          { name := field, seriesType := "bar", smooth := none,
            data := [sampleRow].map (fun d => rowGet d field) }) ∧
      (buildLineOption emptyChartConfig [sampleRow] ["a", "b"] []).series =
        (["a", "b"].drop 1).map (fun field =>
          { name := field, seriesType := "line", smooth := some true,
            data := [sampleRow].map (fun d => rowGet d field) })) :=
  ⟨missing_mapping_fallback_c8.1 emptyChartConfig [sampleRow] ["a", "b"] [] rfl,
   missing_mapping_fallback_c8.2 emptyChartConfig [sampleRow] ["a", "b"] [] rfl⟩

/-- C10 counterexample: with an empty data array but a config that
already carries a `series` payload, `buildOption` passes the config
through instead of returning the no-data placeholder. -/
theorem chart_empty_data_c10_counterexample :
    buildOption { emptyChartConfig with series := some (.num 1) }
        (some { columns := none, data := some [] }) [] =
      .passthrough { emptyChartConfig with series := some (.num 1) } [] ∧
    buildOption { emptyChartConfig with series := some (.num 1) }
        (some { columns := none, data := some [] }) [] ≠ .noData := by
  constructor <;> decide

/-- C10 (amended): the chart component is total on degenerate inputs —
without a columns list the column names come from the first row's keys;
an empty data array yields the no-data placeholder whenever the config
is not already a full ECharts option (such configs are passed through
unchanged); a null config makes `renderChart` do nothing. -/
theorem chart_component_degenerate_c10 :
    (∀ (rd : RenderData) (r : Row) (rows : List Row),
        rd.columns = none → rd.data = some (r :: rows) →
        normalizeColumns (some rd) = List.map Prod.fst r) ∧
    (∀ (config : ChartConfig) (renderData : Option RenderData) (colors : List String),
        jOptTruthy config.series = false → jOptTruthy config.xAxis = false →
        jOptTruthy config.yAxis = false →
        (renderData.bind RenderData.data).getD [] = [] →
        buildOption config renderData colors = .noData) ∧
    (∀ (present : Bool) (rd : Option RenderData) (colors : List String),
        renderChart present none rd colors = none) := by
  refine ⟨?_, ?_, ?_⟩
  · intro rd r rows hcols hdata
    simp [normalizeColumns, hcols, hdata]
  · intro config renderData colors hs hx hy hdata
    simp [buildOption, hs, hx, hy, hdata]
  · intro present rd colors
    simp [renderChart]

/-- Witness for C10's amended theorem at concrete degenerate inputs. -/
theorem chart_component_degenerate_c10_witness :
    normalizeColumns (some sampleRenderData) = List.map Prod.fst sampleRow ∧
    buildOption emptyChartConfig (some { columns := none, data := some [] }) [] =
      .noData ∧
    renderChart true none (some sampleRenderData) [] = none :=
  ⟨chart_component_degenerate_c10.1 sampleRenderData sampleRow [] rfl rfl,
   chart_component_degenerate_c10.2.1 emptyChartConfig
     (some { columns := none, data := some [] }) [] rfl rfl rfl rfl,
   chart_component_degenerate_c10.2.2 true (some sampleRenderData) []⟩

/-- Normal form of the `bus_data` update: each message field is written
independently from the corresponding event field. -/
theorem applyBusData_eq (m : Msg) (d : EventData) :
    applyBusData m d =
      { m with
        chartConfig := d.chart_config.or m.chartConfig,
        renderData := d.render_data.or m.renderData,
        tableData := match d.render_data with
          | some r => r.data
          | none => m.tableData,
        sql := match d.sql with
          | some s => if s = "" then m.sql else some s
          | none => m.sql,
        recommended := d.recommended_questions.or m.recommended } := by
  unfold applyBusData
  cases hc : d.chart_config <;> cases hr : d.render_data <;>
    cases hq : d.recommended_questions <;> cases hs : d.sql <;>
    first
      | rfl
      | (rename_i s
         by_cases hse : s = "" <;> simp [hse])

/-- Two events carry disjoint `bus_data` payload fields: none of the
four payload fields is present in both. -/
def busDisjoint (e₁ e₂ : SSEEvent) : Prop :=
  (e₁.data.chart_config = none ∨ e₂.data.chart_config = none) ∧
  (e₁.data.render_data = none ∨ e₂.data.render_data = none) ∧
  (e₁.data.sql = none ∨ e₂.data.sql = none) ∧
  (e₁.data.recommended_questions = none ∨ e₂.data.recommended_questions = none)

theorem busDisjoint_symm : Symmetric busDisjoint := by
  intro a b h
  exact ⟨h.1.symm, h.2.1.symm, h.2.2.1.symm, h.2.2.2.symm⟩

/-- `bus_data` updates with disjoint payload fields commute. -/
theorem applyBusData_comm (m : Msg) (d₁ d₂ : EventData)
    (hc : d₁.chart_config = none ∨ d₂.chart_config = none)
    (hr : d₁.render_data = none ∨ d₂.render_data = none)
    (hs : d₁.sql = none ∨ d₂.sql = none)
    (hq : d₁.recommended_questions = none ∨ d₂.recommended_questions = none) :
    applyBusData (applyBusData m d₁) d₂ = applyBusData (applyBusData m d₂) d₁ := by
  rw [applyBusData_eq, applyBusData_eq, applyBusData_eq, applyBusData_eq]
  rcases hc with hc | hc <;> rcases hr with hr | hr <;>
    rcases hs with hs | hs <;> rcases hq with hq | hq <;>
    simp [hc, hr, hs, hq]

/-- `processSSEEvent` on two `bus_data` events with disjoint payloads
commutes. -/
theorem processSSEEvent_bus_comm (e₁ e₂ : SSEEvent)
    (h₁ : e₁.dataType = "bus_data") (h₂ : e₂.dataType = "bus_data")
    (hd : busDisjoint e₁ e₂) (m : Msg) :
    processSSEEvent (processSSEEvent m e₁) e₂ =
      processSSEEvent (processSSEEvent m e₂) e₁ := by
  simp only [processSSEEvent, h₁, h₂]
  norm_num
  exact applyBusData_comm m e₁.data e₂.data hd.1 hd.2.1 hd.2.2.1 hd.2.2.2

/-- C4: folding `processSSEEvent` over a list of `bus_data` events with
pairwise-distinct payload fields gives the same final message state for
every permutation of the list. -/
theorem busData_order_independent_c4 (m : Msg) (l l' : List SSEEvent)
    (hbus : ∀ e ∈ l, e.dataType = "bus_data")
    (hdisj : l.Pairwise busDisjoint)
    (hperm : l.Perm l') :
    l.foldl processSSEEvent m = l'.foldl processSSEEvent m := by
  refine hperm.foldl_eq' ?_ m
  intro x hx y hy z
  by_cases hxy : x = y
  · subst hxy; rfl
  · exact processSSEEvent_bus_comm x y (hbus x hx) (hbus y hy)
      (hdisj.forall busDisjoint_symm hx hy hxy) z

/-- Witness for C4: an `sql` event and a `render_data` event applied in
either order give the same message. -/
theorem busData_order_independent_c4_witness :
    (∀ e ∈ [ ({ dataType := "bus_data",
                data := { emptyEventData with sql := some "SELECT 1" } } : SSEEvent),
             { dataType := "bus_data",
               data := { emptyEventData with render_data := some sampleRenderData } } ],
        e.dataType = "bus_data") ∧
    List.foldl processSSEEvent initialAiMsg
        [ { dataType := "bus_data",
            data := { emptyEventData with sql := some "SELECT 1" } },
          { dataType := "bus_data",
            data := { emptyEventData with render_data := some sampleRenderData } } ] =
      List.foldl processSSEEvent initialAiMsg
        [ { dataType := "bus_data",
            data := { emptyEventData with render_data := some sampleRenderData } },
          { dataType := "bus_data",
            data := { emptyEventData with sql := some "SELECT 1" } } ] := by
  refine ⟨by decide, ?_⟩
  exact busData_order_independent_c4 initialAiMsg _ _ (by decide)
    (by constructor
        · intro b hb
          simp only [List.mem_singleton] at hb
          subst hb
          exact ⟨Or.inl rfl, Or.inl rfl, Or.inr rfl, Or.inl rfl⟩
        · exact List.pairwise_singleton _ _)
    (List.Perm.swap _ _ _)

/-- Forward order on step statuses: unchanged, or `running` → `done`. -/
def statusLe (s t : String) : Prop :=
  s = t ∨ (s = "running" ∧ t = "done")

theorem statusLe_trans {a b c : String} (h₁ : statusLe a b) (h₂ : statusLe b c) :
    statusLe a c := by
  rcases h₁ with h₁ | ⟨ha, hb⟩
  · rw [h₁]; exact h₂
  · rcases h₂ with h₂ | ⟨hb', hc⟩
    · rw [← h₂]; exact Or.inr ⟨ha, hb⟩
    · exact Or.inr ⟨ha, hc⟩

/-- Every step the consumer has recorded is `running` or `done`
(`pending` exists only in the view template's fallback icon, never in
the consumer's list). -/
def stepStatusInv (m : Msg) : Prop :=
  ∀ s ∈ m.steps, s.status = "running" ∨ s.status = "done"

theorem markDone_getElem (l : List Step) (t : Option String) (i : Nat) (s : Step)
    (h : l[i]? = some s) :
    (markDone l t)[i]? = some s ∨
      (markDone l t)[i]? = some { s with status := "done" } := by
  induction l generalizing i with
  | nil => simp at h
  | cons hd rest ih =>
    unfold markDone
    split
    · cases i with
      | zero =>
        simp only [List.getElem?_cons_zero, Option.some.injEq] at h
        rw [← h]
        right
        simp
      | succ n =>
        simp only [List.getElem?_cons_succ] at h ⊢
        exact Or.inl h
    · cases i with
      | zero =>
        simp only [List.getElem?_cons_zero, Option.some.injEq] at h
        rw [← h]
        left
        simp
      | succ n =>
        simp only [List.getElem?_cons_succ] at h ⊢
        exact ih n h

theorem markDone_mem (l : List Step) (t : Option String) (s' : Step)
    (h : s' ∈ markDone l t) :
    s' ∈ l ∨ ∃ s ∈ l, s' = { s with status := "done" } := by
  induction l with
  | nil => simp [markDone] at h
  | cons hd rest ih =>
    unfold markDone at h
    split at h
    · rcases List.mem_cons.1 h with h | h
      · exact Or.inr ⟨hd, List.mem_cons_self hd rest, h⟩
      · exact Or.inl (List.mem_cons_of_mem _ h)
    · rcases List.mem_cons.1 h with h | h
      · exact Or.inl (by rw [h]; exact List.mem_cons_self hd rest)
      · rcases ih h with h | ⟨s, hs, he⟩
        · exact Or.inl (List.mem_cons_of_mem _ h)
        · exact Or.inr ⟨s, List.mem_cons_of_mem _ hs, he⟩

theorem applyBusData_steps (m : Msg) (d : EventData) :
    (applyBusData m d).steps = m.steps := by
  rw [applyBusData_eq]

theorem applyAnswer_steps (m : Msg) (d : EventData) :
    (applyAnswer m d).steps = m.steps := by
  unfold applyAnswer
  split <;> rfl

/-- A message whose step list is unchanged trivially satisfies the
per-step monotonicity conclusion. -/
theorem steps_unchanged_mono (m m' : Msg) (hsteps : m'.steps = m.steps)
    (hinv : stepStatusInv m) :
    stepStatusInv m' ∧
    ∀ (i : Nat) (s : Step), m.steps[i]? = some s →
      ∃ s' : Step, m'.steps[i]? = some s' ∧ s'.label = s.label ∧
        statusLe s.status s'.status := by
  constructor
  · intro s hs
    rw [hsteps] at hs
    exact hinv s hs
  · intro i s h
    exact ⟨s, by rw [hsteps]; exact h, rfl, Or.inl rfl⟩

/-- One event preserves the status invariant and moves every existing
step's status at most forward, keeping its label and position. -/
theorem processSSEEvent_step_mono (m : Msg) (e : SSEEvent)
    (hinv : stepStatusInv m) :
    stepStatusInv (processSSEEvent m e) ∧
    ∀ (i : Nat) (s : Step), m.steps[i]? = some s →
      ∃ s' : Step, (processSSEEvent m e).steps[i]? = some s' ∧ s'.label = s.label ∧
        statusLe s.status s'.status := by
  unfold processSSEEvent
  split
  · unfold applyStepProgress
    split
    · constructor
      · intro s hs
        simp only [List.mem_append, List.mem_singleton] at hs
        rcases hs with hs | hs
        · exact hinv s hs
        · rw [hs]
          exact Or.inl rfl
      · intro i s h
        obtain ⟨hi, -⟩ := List.getElem?_eq_some_iff.1 h
        exact ⟨s, by rw [List.getElem?_append_left hi]; exact h, rfl, Or.inl rfl⟩
    · split
      · constructor
        · intro s hs
          rcases markDone_mem _ _ _ hs with hs | ⟨s0, hs0, he⟩
          · exact hinv s hs
          · rw [he]
            exact Or.inr rfl
        · intro i s h
          rcases markDone_getElem m.steps _ i s h with h' | h'
          · exact ⟨s, h', rfl, Or.inl rfl⟩
          · refine ⟨{ s with status := "done" }, h', rfl, ?_⟩
            rcases hinv s (List.getElem?_mem h) with hs | hs
            · exact Or.inr ⟨hs, rfl⟩
            · exact Or.inl hs
      · exact steps_unchanged_mono m m rfl hinv
  · split
    · exact steps_unchanged_mono m _ (applyAnswer_steps m e.data) hinv
    · split
      · exact steps_unchanged_mono m _ (applyBusData_steps m e.data) hinv
      · exact steps_unchanged_mono m m rfl hinv

/-- C5: over any processed event sequence, a recorded step keeps its
position and label, and its status only ever moves forward from
`running` to `done` — it never returns to `pending` and never moves from
`done` back to `running`. -/
theorem step_status_monotone_c5 (m : Msg) (evts : List SSEEvent)
    (hinv : stepStatusInv m) :
    stepStatusInv (evts.foldl processSSEEvent m) ∧
    ∀ (i : Nat) (s : Step), m.steps[i]? = some s →
      ∃ s' : Step, (evts.foldl processSSEEvent m).steps[i]? = some s' ∧
        s'.label = s.label ∧ statusLe s.status s'.status := by
  induction evts generalizing m with
  | nil => exact ⟨hinv, fun i s h => ⟨s, h, rfl, Or.inl rfl⟩⟩
  | cons e rest ih =>
    simp only [List.foldl_cons]
    obtain ⟨hinv1, hmono1⟩ := processSSEEvent_step_mono m e hinv
    obtain ⟨hinv2, hmono2⟩ := ih (processSSEEvent m e) hinv1
    refine ⟨hinv2, ?_⟩
    intro i s h
    obtain ⟨s1, h1, hl1, hst1⟩ := hmono1 i s h
    obtain ⟨s2, h2, hl2, hst2⟩ := hmono2 i s1 h1
    exact ⟨s2, h2, hl2.trans hl1, statusLe_trans hst1 hst2⟩

/-- Witness for C5: a running step completed by a `step_progress` event. -/
theorem step_status_monotone_c5_witness :
    stepStatusInv { initialAiMsg with
                    steps := [{ label := some "生成", status := "running" }] } ∧
    (∃ s', (List.foldl processSSEEvent
          { initialAiMsg with
            steps := [{ label := some "生成", status := "running" }] }
          [ { dataType := "step_progress",
              data := { emptyEventData with status := some "complete", stepName := some "生成" } } ]).steps[0]? = some s' ∧
      s'.label = some "生成" ∧ statusLe "running" s'.status) :=
  ⟨fun s hs => by
      simp only [List.mem_singleton] at hs
      rw [hs]
      exact Or.inl rfl,
   (step_status_monotone_c5
      { initialAiMsg with steps := [{ label := some "生成", status := "running" }] }
      [ { dataType := "step_progress",
          data := { emptyEventData with status := some "complete", stepName := some "生成" } } ]
      (fun s hs => by
        simp only [List.mem_singleton] at hs
        rw [hs]
        exact Or.inl rfl)).2 0 { label := some "生成", status := "running" } rfl⟩

/-- C7: while a stream is in flight `handleSend` refuses a new
submission (with `streaming` set, no request is built and the state is
untouched); at every suspension point of an accepted run the
`streaming` flag is still set; and every completion path — HTTP
failure, exception, or normal stream end — leaves `streaming` cleared. -/
theorem streaming_discipline_c7 :
    (∀ (st : UIState) (res : StreamResult), st.streaming = true →
        handleSendRequest st = none ∧ handleSendRun st res = st) ∧
    (∀ (st : UIState) (res : StreamResult), st.streaming = false →
        (handleSendRun st res).streaming = false) ∧
    (∀ (st : UIState) (res : StreamResult) (s : UIState),
        s ∈ handleSendMidStates st res → s.streaming = true) := by
  refine ⟨?_, ?_, ?_⟩
  · intro st res h
    have hreq : handleSendRequest st = none := by
      simp [handleSendRequest, h]
    refine ⟨hreq, ?_⟩
    unfold handleSendRun
    rw [hreq]
  · intro st res h
    unfold handleSendRun
    cases hreq : handleSendRequest st with
    | none => exact h
    | some r =>
      cases res with
      | httpFail status => rfl
      | stream events exn => cases exn <;> rfl
  · intro st res s hs
    unfold handleSendMidStates at hs
    cases hreq : handleSendRequest st with
    | none =>
      rw [hreq] at hs
      simp at hs
    | some r =>
      rw [hreq] at hs
      cases res with
      | httpFail status =>
        simp only [List.mem_singleton] at hs
        rw [hs]
      | stream events exn =>
        simp only [List.mem_map] at hs
        obtain ⟨x, hx, he⟩ := hs
        rw [← he]

/-- Witness for C7 at concrete view states and stream outcomes. -/
theorem streaming_discipline_c7_witness :
    (handleSendRequest
        { inputText := "q", currentDsId := some 1, streaming := true,
          chatId := none, selectedModel := "", messages := [] } = none ∧
      handleSendRun
        { inputText := "q", currentDsId := some 1, streaming := true,
          chatId := none, selectedModel := "", messages := [] }
        (.stream [] none) =
        { inputText := "q", currentDsId := some 1, streaming := true,
          chatId := none, selectedModel := "", messages := [] }) ∧
    (handleSendRun
        { inputText := "q", currentDsId := some 1, streaming := false,
          chatId := none, selectedModel := "", messages := [] }
        (.httpFail 500)).streaming = false ∧
    ({ inputText := "", currentDsId := some 1, streaming := true,
       chatId := none, selectedModel := "",
       messages := [ .user "q", .ai initialAiMsg ] } : UIState).streaming = true := by
  refine ⟨streaming_discipline_c7.1 _ (.stream [] none) rfl,
          streaming_discipline_c7.2.1 _ (.httpFail 500) rfl,
          streaming_discipline_c7.2.2
            { inputText := "q", currentDsId := some 1, streaming := false,
              chatId := none, selectedModel := "", messages := [] }
            (.stream [] none) _ (by decide)⟩
